import Mathlib

/-!
Verification of the dockmate wrapper package: a shallow embedding of its
parsing routines, constructor validation, preparation pipelines and
save operations, together with theorems about their behaviour.

Python strings are modelled as Lean `String`s, Python `float` values as `Rat`
(finite decimal/scientific literals; `inf`/`nan` tokens are out of scope),
file-system paths as lists of path components, and the file system as a flat
map from paths to file contents plus a set of directories.  Side effects
(subprocess invocations, wrapper-performed file writes, existence checks,
directory creation) are recorded as explicit event traces.
-/

namespace Dockmate

/-! ## Python string primitives -/

/-- Characters Python treats as whitespace for `str.strip` and `str.split`. -/
def pyIsSpace (c : Char) : Bool :=
  c = ' ' || c = '\t' || c = '\n' || c = '\r' || c = Char.ofNat 11 || c = Char.ofNat 12

/-- Python `str.strip()`: remove leading and trailing whitespace. -/
def pyStrip (s : String) : String :=
  String.mk (((s.toList.dropWhile pyIsSpace).reverse.dropWhile pyIsSpace).reverse)

/-- Helper for `pySplit`: accumulate the current token (reversed) while walking. -/
def pySplitAux : List Char → List Char → List String
  | [], acc => if acc.isEmpty then [] else [String.mk acc.reverse]
  | c :: cs, acc =>
    if pyIsSpace c then
      if acc.isEmpty then pySplitAux cs [] else String.mk acc.reverse :: pySplitAux cs []
    else pySplitAux cs (c :: acc)

/-- Python `str.split()` with no arguments: split on runs of whitespace,
discarding empty tokens. -/
def pySplit (s : String) : List String := pySplitAux s.toList []

/-- Helper for `pySplitlines`. -/
def pySplitlinesAux : List Char → List Char → List String
  | [], acc => if acc.isEmpty then [] else [String.mk acc.reverse]
  | '\r' :: '\n' :: cs, acc => String.mk acc.reverse :: pySplitlinesAux cs []
  | '\n' :: cs, acc => String.mk acc.reverse :: pySplitlinesAux cs []
  | '\r' :: cs, acc => String.mk acc.reverse :: pySplitlinesAux cs []
  | c :: cs, acc => pySplitlinesAux cs (c :: acc)

/-- Python `str.splitlines()` for the line endings produced by the wrapped
tools (`\n`, `\r\n`, `\r`): no trailing empty line. -/
def pySplitlines (s : String) : List String := pySplitlinesAux s.toList []

/-- Whether the first list starts with the second. -/
def listStartsWith : List Char → List Char → Bool
  | _, [] => true
  | [], _ :: _ => false
  | c :: cs, d :: ds => c = d && listStartsWith cs ds

/-- Python `s.startswith(pre)`. -/
def pyStartsWith (s pre : String) : Bool := listStartsWith s.toList pre.toList

/-- Python truthiness of a string: nonempty. -/
def pyTruthy (s : String) : Bool := !s.toList.isEmpty

/-! ## Python numeric parsing (`int(...)` and `float(...)`) -/

/-- Numeric value of a digit string (caller checks all characters are digits). -/
def digitsToNat (cs : List Char) : Nat :=
  cs.foldl (fun a c => 10 * a + (c.toNat - 48)) 0

/-- Parse a nonempty all-digit character list. -/
def parseDigits (cs : List Char) : Option Nat :=
  if !cs.isEmpty && cs.all Char.isDigit then some (digitsToNat cs) else none

/-- Python `int(s)` on an already-stripped token: optional sign then digits. -/
def pyIntCore : List Char → Option Int
  | '-' :: cs => (parseDigits cs).map (fun n => -(n : Int))
  | '+' :: cs => (parseDigits cs).map (fun n => (n : Int))
  | cs => (parseDigits cs).map (fun n => (n : Int))

/-- Python `int(s)`: strips whitespace, then sign and digits. -/
def pyInt (s : String) : Option Int := pyIntCore (pyStrip s).toList

/-- `10 ^ n` as a natural number. -/
def pow10 (n : Nat) : Nat := 10 ^ n

/-- Parse the mantissa of a Python float literal: `digits`, `digits.digits`,
`digits.` or `.digits`; returns the value as a numerator/denominator pair of
naturals and the unconsumed characters. -/
def parseMantissa (cs : List Char) : Option ((Nat × Nat) × List Char) :=
  let ip := cs.takeWhile Char.isDigit
  let r1 := cs.dropWhile Char.isDigit
  match r1 with
  | '.' :: r2 =>
    let fp := r2.takeWhile Char.isDigit
    let r3 := r2.dropWhile Char.isDigit
    if ip.isEmpty && fp.isEmpty then none
    else some ((digitsToNat ip * pow10 fp.length + digitsToNat fp, pow10 fp.length), r3)
  | _ => if ip.isEmpty then none else some ((digitsToNat ip, 1), r1)

/-- Parse the optional exponent part `e[sign]digits` of a Python float literal. -/
def parseExpPart : List Char → Option Int
  | [] => some 0
  | e :: cs =>
    if e = 'e' || e = 'E' then
      match cs with
      | '-' :: ds => (parseDigits ds).map (fun n => Int.negOfNat n)
      | '+' :: ds => (parseDigits ds).map (fun n => Int.ofNat n)
      | ds => (parseDigits ds).map (fun n => Int.ofNat n)
    else none

/-- Scale a numerator/denominator pair by a power-of-ten exponent. -/
def applyExp (m : Nat × Nat) (e : Int) : Nat × Nat :=
  match e with
  | Int.ofNat n => (m.1 * pow10 n, m.2)
  | Int.negSucc n => (m.1, m.2 * pow10 (n + 1))

/-- Unsigned Python float literal: mantissa followed by optional exponent,
as a numerator/denominator pair. -/
def parseUnsignedFloat (cs : List Char) : Option (Nat × Nat) :=
  match parseMantissa cs with
  | none => none
  | some (m, rest) =>
    match parseExpPart rest with
    | none => none
    | some e => some (applyExp m e)

/-- Python `float(s)` on finite decimal/scientific literals, as a `Rat`. -/
def pyFloat (s : String) : Option Rat :=
  match (pyStrip s).toList with
  | '-' :: cs =>
    (parseUnsignedFloat cs).map (fun nd => Rat.divInt (Int.neg (Int.ofNat nd.1)) (Int.ofNat nd.2))
  | '+' :: cs =>
    (parseUnsignedFloat cs).map (fun nd => Rat.divInt (Int.ofNat nd.1) (Int.ofNat nd.2))
  | cs =>
    (parseUnsignedFloat cs).map (fun nd => Rat.divInt (Int.ofNat nd.1) (Int.ofNat nd.2))

/-! ## Error model -/

/-- The exception kinds raised by the wrapper code. -/
inductive PyErr where
  | runtimeError (msg : String)
  | valueError (msg : String)
  | fileNotFoundError (msg : String)
  | typeError (msg : String)
  | calledProcessError (tool : String)
deriving DecidableEq, Repr

/-- Whether an error is a `ValueError`. -/
def PyErr.isValueError : PyErr → Bool
  | .valueError _ => true
  | _ => false

/-- Whether an error is a `TypeError`. -/
def PyErr.isTypeError : PyErr → Bool
  | .typeError _ => true
  | _ => false

/-- Whether an `Except` result is a success. -/
def exOk {ε α : Type} : Except ε α → Bool
  | .ok _ => true
  | .error _ => false

deriving instance DecidableEq for Except

/-! ## VinaDocking._parse_output -/

/-- A parsed docking pose record. -/
structure Pose where
  mode : Int
  affinity_kcal_mol : Rat
  rmsd_lb : Rat
  rmsd_ub : Rat
deriving DecidableEq, Repr

/-- Parse one candidate data line: exactly 4 whitespace-separated tokens,
`int` then three `float`s, as in the `try` block of `_parse_output`. -/
def parseRow (line : String) : Option Pose :=
  match pySplit line with
  | [a, b, c, d] =>
    match pyInt a, pyFloat b, pyFloat c, pyFloat d with
    | some m, some af, some lb, some ub => some ⟨m, af, lb, ub⟩
    | _, _, _, _ => none
  | _ => none

/-- Whether a line is the header line: its stripped text begins with `mode`. -/
def isVinaHeader (line : String) : Bool := pyStartsWith (pyStrip line) "mode"

/-- What a post-header line contributes: skipped header repeats, blank lines,
separator lines starting with `-`, and malformed lines yield nothing. -/
def vinaAccept (line : String) : Option Pose :=
  if isVinaHeader line then none
  else if pyTruthy (pyStrip line) && !pyStartsWith line "-" then parseRow line
  else none

/-- The line-scanning loop of `VinaDocking._parse_output`, with the
`header_found` flag made explicit. -/
def vinaScan : Bool → List String → List Pose
  | _, [] => []
  | headerFound, line :: rest =>
    if isVinaHeader line then vinaScan true rest
    else if headerFound && (pyTruthy (pyStrip line) && !pyStartsWith line "-") then
      match parseRow line with
      | some p => p :: vinaScan headerFound rest
      | none => vinaScan headerFound rest
    else vinaScan headerFound rest

/-- The `no results` error message of `_parse_output`. -/
def noResultsMsg : String := "❌ No docking results found in Vina output."

/-- `VinaDocking._parse_output`: fails when no output was captured, scans the
transcript, and fails when zero rows were extracted. -/
def VinaDocking.parseOutput (vinaOutput : Option String) : Except PyErr (List Pose) :=
  match vinaOutput with
  | none => .error (.runtimeError "❌ No Vina output to parse. Please run docking first.")
  | some out =>
    let data := vinaScan false (pySplitlines out)
    if data.isEmpty then .error (.valueError noResultsMsg)
    else .ok data

/-! ### C1 helper lemmas -/

/-- With the header already found, the scan is a `filterMap` of the
per-line acceptance function. -/
theorem vinaScan_true_eq_filterMap (l : List String) :
    vinaScan true l = l.filterMap vinaAccept := by
  induction l with
  | nil => rfl
  | cons a t ih =>
    simp only [vinaScan, vinaAccept, List.filterMap_cons, Bool.true_and]
    by_cases h1 : isVinaHeader a = true
    · simp [h1, ih]
    · simp only [Bool.not_eq_true] at h1
      by_cases h2 : (pyTruthy (pyStrip a) && !pyStartsWith a "-") = true
      · simp only [h1, h2, if_true, if_false, Bool.false_eq_true]
        cases hp : parseRow a <;> simp [ih]
      · simp only [Bool.not_eq_true] at h2
        simp [h1, h2, ih]

/-- Lines before the first header contribute nothing to the scan. -/
theorem vinaScan_false_append (pre rest : List String)
    (h : ∀ l ∈ pre, isVinaHeader l = false) :
    vinaScan false (pre ++ rest) = vinaScan false rest := by
  induction pre with
  | nil => rfl
  | cons a t ih =>
    have ha : isVinaHeader a = false := h a (List.mem_cons_self a t)
    simp only [List.cons_append, vinaScan, ha, Bool.false_and, Bool.false_eq_true,
      if_false]
    exact ih (fun l hl => h l (List.mem_cons_of_mem a hl))

/-- Hitting a header line switches the scan into accepting mode. -/
theorem vinaScan_header (h : String) (rest : List String)
    (hh : isVinaHeader h = true) :
    vinaScan false (h :: rest) = vinaScan true rest := by
  simp [vinaScan, hh]

/-- C1: given a Vina stdout transcript containing a header line (stripped text
beginning with `mode`) from which exactly 3 data rows are accepted,
`_parse_output` returns exactly those 3 pose records in file order with the
numeric fields parsed from the rows; post-header lines that do not consist of
exactly 4 numeric whitespace-separated tokens contribute nothing; and every
transcript from which zero valid rows are extracted raises the
`no results` `ValueError`. -/
theorem C1_vina_parse_output :
    (∀ (out : String) (pre : List String) (h : String) (rest : List String)
       (p1 p2 p3 : Pose),
       pySplitlines out = pre ++ h :: rest →
       (∀ l ∈ pre, isVinaHeader l = false) →
       isVinaHeader h = true →
       rest.filterMap vinaAccept = [p1, p2, p3] →
       VinaDocking.parseOutput (some out) = .ok [p1, p2, p3])
    ∧ (∀ out : String,
       vinaScan false (pySplitlines out) = [] →
       VinaDocking.parseOutput (some out) = .error (.valueError noResultsMsg)) := by
  constructor
  · intro out pre h rest p1 p2 p3 hsplit hpre hh hrows
    simp only [VinaDocking.parseOutput]
    rw [hsplit, vinaScan_false_append pre (h :: rest) hpre, vinaScan_header h rest hh,
      vinaScan_true_eq_filterMap, hrows]
    rfl
  · intro out hempty
    simp only [VinaDocking.parseOutput]
    rw [hempty]
    rfl

/-- Transcript used to witness C1: a header, a column-caption line, a
separator, and three well-formed data rows. -/
def vinaTranscriptW : String :=
  "mode |   affinity | dist from best mode\n     | (kcal/mol) | rmsd l.b.| rmsd u.b.\n-----+------------+----------+----------\n   1   -7.5   0.0   0.0\n   2   -7.2   1.2   2.1\n   3   -6.9   2.0   3.4\n"

/-- The three pose records of `vinaTranscriptW` (affinities -7.5, -7.2, -6.9;
RMSD bounds 0/0, 1.2/2.1, 2.0/3.4). -/
def vinaPosesW : List Pose :=
  [⟨1, Rat.divInt (-75) 10, Rat.divInt 0 1, Rat.divInt 0 1⟩,
   ⟨2, Rat.divInt (-72) 10, Rat.divInt 12 10, Rat.divInt 21 10⟩,
   ⟨3, Rat.divInt (-69) 10, Rat.divInt 20 10, Rat.divInt 34 10⟩]

/-- C1 witness: the theorem applied to the concrete transcript
`vinaTranscriptW`, yielding its three pose records. -/
theorem C1_vina_parse_output_witness :
    VinaDocking.parseOutput (some vinaTranscriptW) = .ok vinaPosesW :=
  C1_vina_parse_output.1 vinaTranscriptW []
    "mode |   affinity | dist from best mode"
    ["     | (kcal/mol) | rmsd l.b.| rmsd u.b.",
     "-----+------------+----------+----------",
     "   1   -7.5   0.0   0.0",
     "   2   -7.2   1.2   2.1",
     "   3   -6.9   2.0   3.4"]
    ⟨1, Rat.divInt (-75) 10, Rat.divInt 0 1, Rat.divInt 0 1⟩
    ⟨2, Rat.divInt (-72) 10, Rat.divInt 12 10, Rat.divInt 21 10⟩
    ⟨3, Rat.divInt (-69) 10, Rat.divInt 20 10, Rat.divInt 34 10⟩
    (by decide) (by decide) (by decide) (by decide)

/-! ## PocketFinder._parse_output -/

/-- A row of the predictions CSV as produced by `csv.DictReader`: an
association list from column name to cell text. -/
abbrev CsvRow := List (String × String)

/-- Python `row.get(key, dflt)`. -/
def rowGet (row : CsvRow) (key dflt : String) : String :=
  match row.find? (fun kv => kv.1 == key) with
  | some kv => kv.2
  | none => dflt

/-- `row.get(key, row.get("   " + key, "0"))`: the plain column name, else the
three-space-prefixed variant, else the default `"0"`. -/
def centerVal (row : CsvRow) (key : String) : String :=
  rowGet row key (rowGet row ("   " ++ key) "0")

/-- Whether a column is present in a row. -/
def hasKey (row : CsvRow) (k : String) : Bool :=
  (row.find? (fun kv => kv.1 == k)).isSome

/-- One coordinate: `float(row.get(...).strip())`; on failure the payload of
Python's conversion error, which quotes the offending text. -/
def coordParse (row : CsvRow) (key : String) : Except String Rat :=
  let v := pyStrip (centerVal row key)
  match pyFloat v with
  | some q => .ok q
  | none => .error ("could not convert string to float: " ++ v)

/-- The three center coordinates of a row, in the order the code reads them. -/
def rowCoords (row : CsvRow) : Except String (Rat × Rat × Rat) := do
  let x ← coordParse row "center_x"
  let y ← coordParse row "center_y"
  let z ← coordParse row "center_z"
  pure (x, y, z)

/-- A parsed pocket record. -/
structure Pocket where
  rank : Nat
  center : Rat × Rat × Rat
deriving DecidableEq, Repr

/-- The message of the error raised when row `idx` fails to parse, after the
outer `except` block has wrapped the row-level `ValueError`. -/
def rowErrMsg (idx : Nat) (e : String) : String :=
  "❌ Failed to read prediction CSV: ❌ Error parsing coordinates at row " ++
    toString idx ++ ": " ++ e

/-- The message of the error raised when zero pockets are parsed. -/
def noPocketsMsg (csvPath : String) : String :=
  "❌ No pocket centers found in: " ++ csvPath

/-- The row loop of `PocketFinder._parse_output`, starting at index `idx`. -/
def parsePocketsAux : Nat → List CsvRow → Except PyErr (List Pocket)
  | _, [] => .ok []
  | idx, row :: rest =>
    match rowCoords row with
    | .error e => .error (.valueError (rowErrMsg idx e))
    | .ok c =>
      match parsePocketsAux (idx + 1) rest with
      | .error e => .error e
      | .ok ps => .ok (⟨idx, c⟩ :: ps)

/-- `PocketFinder._parse_output` on the rows of an existing predictions CSV:
parse each row, then fail if zero pockets were found. -/
def PocketFinder.parsePockets (csvPath : String) (rows : List CsvRow) :
    Except PyErr (List Pocket) :=
  match parsePocketsAux 1 rows with
  | .error e => .error e
  | .ok [] => .error (.valueError (noPocketsMsg csvPath))
  | .ok ps => .ok ps

/-- The center a row yields (coordinates defaulting per the parse). -/
def specCenter (r : CsvRow) : Rat × Rat × Rat :=
  ((rowCoords r).toOption).getD (Rat.divInt 0 1, Rat.divInt 0 1, Rat.divInt 0 1)

/-- The spec-side description of the result: one record per row, ranks
assigned consecutively from `n` in row order, centers parsed from the rows. -/
def specPocketsAux (n : Nat) : List CsvRow → List Pocket
  | [] => []
  | r :: rs => ⟨n, specCenter r⟩ :: specPocketsAux (n + 1) rs

/-! ### C2 helper lemmas -/

/-- `exOk` characterisation. -/
theorem exOk_iff {ε α : Type} (x : Except ε α) : exOk x = true ↔ ∃ a, x = .ok a := by
  cases x <;> simp [exOk]

/-- The row loop succeeds on all-valid rows and returns the spec result. -/
theorem parsePocketsAux_ok (n : Nat) (rows : List CsvRow)
    (h : ∀ r ∈ rows, exOk (rowCoords r) = true) :
    parsePocketsAux n rows = .ok (specPocketsAux n rows) := by
  induction rows generalizing n with
  | nil => rfl
  | cons r rs ih =>
    obtain ⟨c, hc⟩ := (exOk_iff (rowCoords r)).1 (h r (List.mem_cons_self r rs))
    simp only [parsePocketsAux, specPocketsAux, hc,
      ih (n + 1) (fun q hq => h q (List.mem_cons_of_mem r hq))]
    simp [specCenter, hc, Except.toOption]

/-- The spec result has one record per row. -/
theorem specPocketsAux_length (n : Nat) (rows : List CsvRow) :
    (specPocketsAux n rows).length = rows.length := by
  induction rows generalizing n with
  | nil => rfl
  | cons r rs ih => simp [specPocketsAux, ih]

/-- The record at position `pre.length` has rank `n + pre.length` and the
center of the row at that position. -/
theorem specPocketsAux_get? (n : Nat) (pre : List CsvRow) (r : CsvRow)
    (post : List CsvRow) :
    (specPocketsAux n (pre ++ r :: post)).get? pre.length =
      some ⟨n + pre.length, specCenter r⟩ := by
  induction pre generalizing n with
  | nil => simp [specPocketsAux]
  | cons q qs ih =>
    simp only [List.cons_append, specPocketsAux, List.length_cons, List.get?_cons_succ,
      List.append_eq]
    rw [ih (n + 1)]
    congr 2
    omega

/-- The row loop fails at the first invalid row, naming its 1-based index. -/
theorem parsePocketsAux_error (n : Nat) (pre : List CsvRow) (r : CsvRow)
    (post : List CsvRow) (e : String)
    (hpre : ∀ q ∈ pre, exOk (rowCoords q) = true)
    (hr : rowCoords r = .error e) :
    parsePocketsAux n (pre ++ r :: post) = .error (.valueError (rowErrMsg (n + pre.length) e)) := by
  induction pre generalizing n with
  | nil => simp [parsePocketsAux, hr]
  | cons q qs ih =>
    obtain ⟨c, hc⟩ := (exOk_iff (rowCoords q)).1 (hpre q (List.mem_cons_self q qs))
    simp only [List.cons_append, parsePocketsAux, hc, List.append_eq]
    rw [ih (n + 1) (fun p hp => hpre p (List.mem_cons_of_mem q hp))]
    simp only [List.length_cons]
    congr 3
    omega

/-- C2: for every predictions CSV whose rows all have numerically convertible
coordinates, `_parse_output` returns exactly one record per row, ranked
`1..N` in row order with the parsed centers; a row whose coordinates fail
numeric conversion raises a `ValueError` whose message names that row's
1-based index; and zero parsed pockets raise the `no pockets` error. -/
theorem C2_pocket_csv :
    (∀ (csvPath : String) (rows : List CsvRow), rows ≠ [] →
       (∀ r ∈ rows, exOk (rowCoords r) = true) →
       PocketFinder.parsePockets csvPath rows = .ok (specPocketsAux 1 rows) ∧
       (specPocketsAux 1 rows).length = rows.length)
    ∧ (∀ (n : Nat) (pre : List CsvRow) (r : CsvRow) (post : List CsvRow),
       (specPocketsAux n (pre ++ r :: post)).get? pre.length =
         some ⟨n + pre.length, specCenter r⟩)
    ∧ (∀ (csvPath : String) (pre : List CsvRow) (r : CsvRow) (post : List CsvRow)
         (e : String),
       (∀ q ∈ pre, exOk (rowCoords q) = true) →
       rowCoords r = .error e →
       PocketFinder.parsePockets csvPath (pre ++ r :: post) =
         .error (.valueError (rowErrMsg (pre.length + 1) e)))
    ∧ (∀ csvPath : String,
       PocketFinder.parsePockets csvPath [] = .error (.valueError (noPocketsMsg csvPath))) := by
  refine ⟨?_, specPocketsAux_get?, ?_, fun csvPath => rfl⟩
  · intro csvPath rows hne hok
    refine ⟨?_, specPocketsAux_length 1 rows⟩
    simp only [PocketFinder.parsePockets, parsePocketsAux_ok 1 rows hok]
    cases rows with
    | nil => exact absurd rfl hne
    | cons r rs => simp [specPocketsAux]
  · intro csvPath pre r post e hpre hr
    simp only [PocketFinder.parsePockets, parsePocketsAux_error 1 pre r post e hpre hr]
    rw [Nat.add_comm]

/-- Rows used to witness C2: two valid coordinate rows, with the
three-space-prefixed column variant in the first. -/
def csvRowsW : List CsvRow :=
  [[("name", "p1"), ("   center_x", "  12.3"), ("   center_y", "-4.5"), ("   center_z", "0.8")],
   [("center_x", "1"), ("center_y", "2"), ("center_z", "3")]]

/-- C2 witness: the theorem applied to the concrete rows `csvRowsW`. -/
theorem C2_pocket_csv_witness :
    PocketFinder.parsePockets "protein.pdb_predictions.csv" csvRowsW =
      .ok (specPocketsAux 1 csvRowsW) ∧
    (specPocketsAux 1 csvRowsW).length = csvRowsW.length :=
  C2_pocket_csv.1 "protein.pdb_predictions.csv" csvRowsW (by decide) (by decide)

/-- C9: a coordinate column that is entirely absent (neither the plain key nor
the three-space-prefixed variant) silently defaults to `0.0` and raises no
error; a row in which all six center keys are absent parses to `(0, 0, 0)`;
and a coordinate parse error can only come from a present value. -/
theorem C9_missing_center_defaults :
    (∀ (row : CsvRow) (key : String),
       hasKey row key = false → hasKey row ("   " ++ key) = false →
       coordParse row key = .ok (Rat.divInt 0 1))
    ∧ (∀ row : CsvRow,
       hasKey row "center_x" = false → hasKey row "   center_x" = false →
       hasKey row "center_y" = false → hasKey row "   center_y" = false →
       hasKey row "center_z" = false → hasKey row "   center_z" = false →
       rowCoords row = .ok (Rat.divInt 0 1, Rat.divInt 0 1, Rat.divInt 0 1))
    ∧ (∀ (row : CsvRow) (key : String) (e : String),
       coordParse row key = .error e →
       hasKey row key = true ∨ hasKey row ("   " ++ key) = true) := by
  have base : ∀ (row : CsvRow) (key : String),
      hasKey row key = false → hasKey row ("   " ++ key) = false →
      coordParse row key = .ok (Rat.divInt 0 1) := by
    intro row key h1 h2
    have f1 : row.find? (fun kv => kv.1 == key) = none := by
      cases hf : row.find? (fun kv => kv.1 == key) with
      | none => rfl
      | some kv => rw [hasKey, hf] at h1; simp at h1
    have f2 : row.find? (fun kv => kv.1 == ("   " ++ key)) = none := by
      cases hf : row.find? (fun kv => kv.1 == ("   " ++ key)) with
      | none => rfl
      | some kv => rw [hasKey, hf] at h2; simp at h2
    simp only [coordParse, centerVal, rowGet, f1, f2]
    rfl
  refine ⟨base, ?_, ?_⟩
  · intro row hx1 hx2 hy1 hy2 hz1 hz2
    simp [rowCoords, base row "center_x" hx1 hx2, base row "center_y" hy1 hy2,
      base row "center_z" hz1 hz2]
    rfl
  · intro row key e he
    by_cases h1 : hasKey row key = true
    · exact Or.inl h1
    · by_cases h2 : hasKey row ("   " ++ key) = true
      · exact Or.inr h2
      · rw [base row key (Bool.not_eq_true _ ▸ h1) (Bool.not_eq_true _ ▸ h2)] at he
        cases he

/-- C9 witness: the theorem applied to a concrete row with no center columns. -/
theorem C9_missing_center_defaults_witness :
    coordParse [("name", "pocketA")] "center_x" = .ok (Rat.divInt 0 1) :=
  C9_missing_center_defaults.1 [("name", "pocketA")] "center_x" (by decide) (by decide)

/-! ## Paths and the file system -/

/-- A resolved file-system path, as a list of components. -/
abbrev PathL := List String

/-- Render a path for error messages. -/
def pathStr (p : PathL) : String := String.intercalate "/" p

/-- The final component of a path (`Path.name`). -/
def lastName (p : PathL) : String := p.getLast?.getD ""

/-- ASCII lowercasing, as `str.lower()` acts on extension text. -/
def pyLower (s : String) : String :=
  String.mk (s.toList.map (fun c =>
    if 65 ≤ c.toNat && c.toNat ≤ 90 then Char.ofNat (c.toNat + 32) else c))

/-- Index of the last `.` in a character list, if any. -/
def lastDotIdx (cs : List Char) : Option Nat :=
  match cs.reverse.findIdx? (fun c => c = '.') with
  | some j => some (cs.length - 1 - j)
  | none => none

/-- `PurePath.suffix` of a file name: the extension from the last dot,
empty when the dot is leading or trailing. -/
def pathSuffix (name : String) : String :=
  let cs := name.toList
  match lastDotIdx cs with
  | some i => if 0 < i ∧ i + 1 < cs.length then String.mk (cs.drop i) else ""
  | none => ""

/-- `PurePath.stem` of a file name: the name with its suffix removed. -/
def pathStem (name : String) : String :=
  let suf := pathSuffix name
  if suf.toList.isEmpty then name
  else String.mk (name.toList.take (name.toList.length - suf.toList.length))

/-- A flat model of the file system: files with contents, plus directories. -/
structure FS where
  files : List (PathL × String)
  dirs : List PathL
deriving DecidableEq, Repr

/-- Whether `p` is an existing file. -/
def FS.isFile (fs : FS) (p : PathL) : Bool := fs.files.any (fun kv => kv.1 == p)

/-- Whether `p` is an existing directory. -/
def FS.isDir (fs : FS) (p : PathL) : Bool := fs.dirs.contains p

/-- `mkdir(parents=True, exist_ok=True)`: create the directory and any
missing ancestors. -/
def FS.mkdirP (fs : FS) (p : PathL) : FS :=
  { fs with dirs := p.inits.filter (fun d => !(fs.dirs.contains d)) ++ fs.dirs }

/-- Whether `p` lies strictly inside directory `d`. -/
def under (d p : PathL) : Bool := d.isPrefixOf p && d.length < p.length

/-- `shutil.rmtree d`: remove the directory and everything below it. -/
def FS.rmtree (fs : FS) (d : PathL) : FS :=
  { files := fs.files.filter (fun kv => !(d.isPrefixOf kv.1)),
    dirs := fs.dirs.filter (fun q => !(d.isPrefixOf q)) }

/-- Move a path from below `src` to the corresponding place below `dst`. -/
def relocate (src dst p : PathL) : PathL := dst ++ p.drop src.length

/-- `shutil.copytree src dst` (with `dst` not existing): create `dst` and
copy every file and directory below `src` to the same relative place. -/
def FS.copytree (fs : FS) (src dst : PathL) : FS :=
  { files := (fs.files.filter (fun kv => under src kv.1)).map
      (fun kv => (relocate src dst kv.1, kv.2)) ++ fs.files,
    dirs := dst :: (fs.dirs.filter (fun q => under src q)).map (relocate src dst) ++ fs.dirs }

/-- The files lying strictly inside directory `d`. -/
def FS.dirFiles (fs : FS) (d : PathL) : List (PathL × String) :=
  fs.files.filter (fun kv => under d kv.1)

/-! ## Constructors (Protein, Ligand, PocketFinder) -/

/-- `Protein.SUPPORTED_INPUTS`. -/
def PROTEIN_SUPPORTED_INPUTS : List String := [".pdb", ".mol2", ".sdf", ".pdbqt", ".ent", ".xyz"]

/-- `Ligand.SUPPORTED_INPUTS` (extensions without the dot). -/
def LIGAND_SUPPORTED_INPUTS : List String := ["mol2", "sdf", "pdb", "mol", "smi"]

/-- The state of a `Protein` object. -/
structure ProteinState where
  file_path : PathL
  ext : String
  pdb_path : Option PathL
  pdbqt_path : Option PathL
deriving DecidableEq, Repr

/-- `self.file_path.suffix.lower()` for a protein input. -/
def proteinExt (p : PathL) : String := pyLower (pathSuffix (lastName p))

/-- `Protein.__init__`: existence check, then extension allow-list check. -/
def proteinInit (fs : FS) (filePath : PathL) : Except PyErr ProteinState :=
  if !(fs.isFile filePath) then
    .error (.fileNotFoundError ("❌ Protein file not found: " ++ pathStr filePath))
  else
    let ext := proteinExt filePath
    if !(PROTEIN_SUPPORTED_INPUTS.contains ext) then
      .error (.valueError ("❌ Unsupported file format " ++ ext ++ ". Supported formats: .pdb, .mol2, .sdf, .pdbqt, .ent, .xyz"))
    else .ok ⟨filePath, ext, none, none⟩

/-- The state of a `Ligand` object. -/
structure LigandState where
  file_path : PathL
  input_format : String
  mol2_path : Option PathL
  pdbqt_path : Option PathL
deriving DecidableEq, Repr

/-- `self.file_path.suffix.lower().lstrip(".")` for a ligand input. -/
def ligandExt (p : PathL) : String :=
  String.mk ((pyLower (pathSuffix (lastName p))).toList.dropWhile (fun c => c = '.'))

/-- `Ligand.__init__`: existence check, then extension allow-list check. -/
def ligandInit (fs : FS) (filePath : PathL) : Except PyErr LigandState :=
  if !(fs.isFile filePath) then
    .error (.fileNotFoundError ("❌ Ligand file not found: " ++ pathStr filePath))
  else
    let ext := ligandExt filePath
    if !(LIGAND_SUPPORTED_INPUTS.contains ext) then
      .error (.valueError ("❌ Unsupported file format ." ++ ext ++ ". Supported formats: mol2, sdf, pdb, mol, smi"))
    else .ok ⟨filePath, ext, none, none⟩

/-- The package-relative P2Rank results directory. -/
def TEMP_P2RANK_DIR : PathL := ["dockmate", "temp", "p2rank_results"]

/-- The state of a `PocketFinder` object. -/
structure PocketFinderState where
  protein_path : PathL
  output_dir : PathL
  threads : Int
deriving DecidableEq, Repr

/-- `PocketFinder.__init__`: existence check, `.pdb` extension check, then
creation of the per-protein output directory. -/
def pocketFinderInit (fs : FS) (proteinPath : PathL) (threads : Int) :
    Except PyErr (PocketFinderState × FS) :=
  if !(fs.isFile proteinPath) then
    .error (.fileNotFoundError ("❌ PDB file not found: " ++ pathStr proteinPath))
  else if pyLower (pathSuffix (lastName proteinPath)) ≠ ".pdb" then
    .error (.valueError "❌ Unsupported file format. Only .pdb is supported.")
  else
    let fs1 := fs.mkdirP TEMP_P2RANK_DIR
    let outDir := TEMP_P2RANK_DIR ++ [pathStem (lastName proteinPath)]
    let fs2 := fs1.mkdirP outDir
    .ok (⟨proteinPath, outDir, threads⟩, fs2)

/-- C4: each of the three constructors succeeds iff the input file exists and
its extension is in that component's allow-list; a missing file raises
`FileNotFoundError`, and an existing file with a disallowed extension raises
the unsupported-format `ValueError`. -/
theorem C4_constructor_validation :
    (∀ (fs : FS) (p : PathL),
       (∃ st, proteinInit fs p = .ok st) ↔
       (fs.isFile p = true ∧ PROTEIN_SUPPORTED_INPUTS.contains (proteinExt p) = true))
    ∧ (∀ (fs : FS) (p : PathL), fs.isFile p = false →
       ∃ m, proteinInit fs p = .error (.fileNotFoundError m))
    ∧ (∀ (fs : FS) (p : PathL), fs.isFile p = true →
       PROTEIN_SUPPORTED_INPUTS.contains (proteinExt p) = false →
       ∃ m, proteinInit fs p = .error (.valueError m))
    ∧ (∀ (fs : FS) (p : PathL),
       (∃ st, ligandInit fs p = .ok st) ↔
       (fs.isFile p = true ∧ LIGAND_SUPPORTED_INPUTS.contains (ligandExt p) = true))
    ∧ (∀ (fs : FS) (p : PathL), fs.isFile p = false →
       ∃ m, ligandInit fs p = .error (.fileNotFoundError m))
    ∧ (∀ (fs : FS) (p : PathL), fs.isFile p = true →
       LIGAND_SUPPORTED_INPUTS.contains (ligandExt p) = false →
       ∃ m, ligandInit fs p = .error (.valueError m))
    ∧ (∀ (fs : FS) (p : PathL) (t : Int),
       (∃ r, pocketFinderInit fs p t = .ok r) ↔
       (fs.isFile p = true ∧ pyLower (pathSuffix (lastName p)) = ".pdb"))
    ∧ (∀ (fs : FS) (p : PathL) (t : Int), fs.isFile p = false →
       ∃ m, pocketFinderInit fs p t = .error (.fileNotFoundError m))
    ∧ (∀ (fs : FS) (p : PathL) (t : Int), fs.isFile p = true →
       pyLower (pathSuffix (lastName p)) ≠ ".pdb" →
       ∃ m, pocketFinderInit fs p t = .error (.valueError m)) := by
  refine ⟨?_, ?_, ?_, ?_, ?_, ?_, ?_, ?_, ?_⟩
  · intro fs p
    by_cases h1 : fs.isFile p = true
    · by_cases hm : proteinExt p ∈ PROTEIN_SUPPORTED_INPUTS
      · simp [proteinInit, h1, hm]
      · simp [proteinInit, h1, hm]
    · simp only [Bool.not_eq_true] at h1
      simp [proteinInit, h1]
  · intro fs p h1
    refine ⟨"❌ Protein file not found: " ++ pathStr p, ?_⟩
    simp [proteinInit, h1]
  · intro fs p h1 h2
    have hm : proteinExt p ∉ PROTEIN_SUPPORTED_INPUTS := by simpa using h2
    refine ⟨"❌ Unsupported file format " ++ proteinExt p ++ ". Supported formats: .pdb, .mol2, .sdf, .pdbqt, .ent, .xyz", ?_⟩
    simp [proteinInit, h1, hm]
  · intro fs p
    by_cases h1 : fs.isFile p = true
    · by_cases hm : ligandExt p ∈ LIGAND_SUPPORTED_INPUTS
      · simp [ligandInit, h1, hm]
      · simp [ligandInit, h1, hm]
    · simp only [Bool.not_eq_true] at h1
      simp [ligandInit, h1]
  · intro fs p h1
    refine ⟨"❌ Ligand file not found: " ++ pathStr p, ?_⟩
    simp [ligandInit, h1]
  · intro fs p h1 h2
    have hm : ligandExt p ∉ LIGAND_SUPPORTED_INPUTS := by simpa using h2
    refine ⟨"❌ Unsupported file format ." ++ ligandExt p ++ ". Supported formats: mol2, sdf, pdb, mol, smi", ?_⟩
    simp [ligandInit, h1, hm]
  · intro fs p t
    by_cases h1 : fs.isFile p = true
    · by_cases h2 : pyLower (pathSuffix (lastName p)) = ".pdb"
      · simp [pocketFinderInit, h1, h2]
      · simp [pocketFinderInit, h1, h2]
    · simp only [Bool.not_eq_true] at h1
      simp [pocketFinderInit, h1]
  · intro fs p t h1
    refine ⟨"❌ PDB file not found: " ++ pathStr p, ?_⟩
    simp [pocketFinderInit, h1]
  · intro fs p t h1 h2
    refine ⟨"❌ Unsupported file format. Only .pdb is supported.", ?_⟩
    simp [pocketFinderInit, h1, h2]

/-- A one-file file system used in constructor witnesses. -/
def fsW : FS := { files := [(["inputs", "recep.cif"], "DATA")], dirs := [[], ["inputs"]] }

/-- C4 witness: the theorem applied to a present `.cif` file (unsupported
protein format) and to a missing file. -/
theorem C4_constructor_validation_witness :
    (∃ m, proteinInit fsW ["inputs", "recep.cif"] = .error (.valueError m)) ∧
    (∃ m, ligandInit fsW ["inputs", "absent.sdf"] = .error (.fileNotFoundError m)) :=
  ⟨C4_constructor_validation.2.2.1 fsW ["inputs", "recep.cif"] (by decide) (by decide),
   C4_constructor_validation.2.2.2.2.1 fsW ["inputs", "absent.sdf"] (by decide)⟩

/-! ## Python values and effect events -/

/-- The Python values relevant to the docking-engine arguments. -/
inductive PyVal where
  | int (i : Int)
  | float (q : Rat)
  | bool (b : Bool)
  | str (s : String)
  | tuple (elems : List PyVal)
  | pynone

/-- `isinstance(v, (float, int))`; Python `bool` is a subclass of `int`. -/
def isNumeric : PyVal → Bool
  | .int _ => true
  | .float _ => true
  | .bool _ => true
  | _ => false

/-- `isinstance(v, tuple) and len(v) == 3`. -/
def isTuple3 : PyVal → Bool
  | .tuple l => l.length == 3
  | _ => false

/-- The elements of a tuple value. -/
def tupleElems : PyVal → List PyVal
  | .tuple l => l
  | _ => []

/-- `v[i]` on a tuple value. -/
def pyIndex (v : PyVal) (i : Nat) : PyVal := (tupleElems v).getD i PyVal.pynone

/-- `str(v)` (rendering model; `float` repr approximated by its `Rat` text). -/
def pyValStr : PyVal → String
  | .int i => toString i
  | .float q => toString q
  | .bool b => if b then "True" else "False"
  | .str s => s
  | .tuple _ => "tuple"
  | .pynone => "None"

/-- `str(i)` for an integer argument. -/
def intStr (i : Int) : String := toString i

/-- Side effects the wrapper performs, in order: file-existence checks,
directory creation, subprocess invocations, wrapper file writes, and the
structure-fixing library calls. -/
inductive Ev where
  | checkFile (p : PathL)
  | mkdirEv (p : PathL)
  | runProc (cmd : List String)
  | writeF (p : PathL)
  | fixer (op : String)
  | fixerHet (keepWater : Bool)
  | fixerHyd (pH : Rat)
deriving DecidableEq, Repr

/-! ## VinaDocking construction and run -/

/-- `VinaDocking._validate_inputs`: shape checks (`ValueError`) then element
type checks (`TypeError`). -/
def validateInputs (center size : PyVal) : Except PyErr Unit :=
  if !(isTuple3 center) then .error (.valueError "⚠️ center must be a 3-tuple of floats.")
  else if !(isTuple3 size) then .error (.valueError "⚠️ size must be a 3-tuple of floats.")
  else if (tupleElems center ++ tupleElems size).any (fun v => !(isNumeric v)) then
    .error (.typeError "⚠️ Grid center and size values must be float or int.")
  else .ok ()

/-- The package-relative Vina results directory. -/
def TEMP_VINA_DIR : PathL := ["dockmate", "temp", "vina_results"]

/-- The state of a `VinaDocking` object after construction. -/
structure VinaState where
  receptor : PathL
  ligand : PathL
  center : PyVal
  size : PyVal
  exhaustiveness : Int
  num_modes : Int
  cpu : Int
  seed : Option Int
  base_name : String
  output_pdbqt : PathL
  output_log : PathL
  output_csv : PathL

/-- `VinaDocking.__init__`: geometry validation first, then the receptor and
ligand existence checks, then creation of the temporary results directory;
the returned trace records the file-system interactions in order. -/
def vinaInit (fs : FS) (receptor ligand : PathL) (center size : PyVal)
    (exhaustiveness num_modes cpu : Int) (seed : Option Int) :
    List Ev × Except PyErr (VinaState × FS) :=
  match validateInputs center size with
  | .error e => ([], .error e)
  | .ok _ =>
    if !(fs.isFile receptor) then
      ([.checkFile receptor],
       .error (.fileNotFoundError ("❌ Receptor file not found: " ++ pathStr receptor)))
    else if !(fs.isFile ligand) then
      ([.checkFile receptor, .checkFile ligand],
       .error (.fileNotFoundError ("❌ Ligand file not found: " ++ pathStr ligand)))
    else
      let baseName := pathStem (lastName receptor) ++ "_" ++ pathStem (lastName ligand) ++ "_docked"
      ([.checkFile receptor, .checkFile ligand, .mkdirEv TEMP_VINA_DIR],
       .ok (⟨receptor, ligand, center, size, exhaustiveness, num_modes, cpu, seed, baseName,
             TEMP_VINA_DIR ++ [baseName ++ ".pdbqt"], TEMP_VINA_DIR ++ [baseName ++ ".log"],
             TEMP_VINA_DIR ++ [baseName ++ ".csv"]⟩,
            fs.mkdirP TEMP_VINA_DIR))

/-- C5: whenever center or size is not a 3-tuple or contains a non-numeric
entry, construction fails with a `ValueError` or `TypeError` and the event
trace is empty: no existence check, no directory creation, no subprocess. -/
theorem C5_geometry_validation_first :
    ∀ (fs : FS) (receptor ligand : PathL) (center size : PyVal)
      (ex nm cpu : Int) (seed : Option Int),
    (isTuple3 center = false ∨ isTuple3 size = false ∨
      (tupleElems center ++ tupleElems size).any (fun v => !(isNumeric v)) = true) →
    ∃ e, vinaInit fs receptor ligand center size ex nm cpu seed = ([], .error e) ∧
      (e.isValueError = true ∨ e.isTypeError = true) := by
  intro fs receptor ligand center size ex nm cpu seed h
  by_cases c1 : isTuple3 center = true
  · by_cases c2 : isTuple3 size = true
    · have h3 : (tupleElems center ++ tupleElems size).any (fun v => !(isNumeric v)) = true := by
        rcases h with h | h | h
        · rw [c1] at h; cases h
        · rw [c2] at h; cases h
        · exact h
      refine ⟨.typeError "⚠️ Grid center and size values must be float or int.", ?_, Or.inr rfl⟩
      simp [vinaInit, validateInputs, c1, c2, h3]
    · have c2' : isTuple3 size = false := by simpa using c2
      refine ⟨.valueError "⚠️ size must be a 3-tuple of floats.", ?_, Or.inl rfl⟩
      simp [vinaInit, validateInputs, c1, c2']
  · have c1' : isTuple3 center = false := by simpa using c1
    refine ⟨.valueError "⚠️ center must be a 3-tuple of floats.", ?_, Or.inl rfl⟩
    simp [vinaInit, validateInputs, c1']

/-- C5 witness: the theorem applied to a 2-tuple center. -/
theorem C5_geometry_validation_first_witness :
    ∃ e, vinaInit fsW ["r.pdbqt"] ["l.pdbqt"]
        (PyVal.tuple [PyVal.int 1, PyVal.int 2])
        (PyVal.tuple [PyVal.int 1, PyVal.int 2, PyVal.int 3]) 8 9 4 none =
      ([], .error e) ∧ (e.isValueError = true ∨ e.isTypeError = true) :=
  C5_geometry_validation_first fsW ["r.pdbqt"] ["l.pdbqt"]
    (PyVal.tuple [PyVal.int 1, PyVal.int 2])
    (PyVal.tuple [PyVal.int 1, PyVal.int 2, PyVal.int 3]) 8 9 4 none
    (Or.inl (by decide))

/-- The command line `VinaDocking.run` builds. -/
def vinaCmd (st : VinaState) : List String :=
  ["dockmate/bin/Vina/vina.exe",
   "--receptor", pathStr st.receptor, "--ligand", pathStr st.ligand,
   "--center_x", pyValStr (pyIndex st.center 0),
   "--center_y", pyValStr (pyIndex st.center 1),
   "--center_z", pyValStr (pyIndex st.center 2),
   "--size_x", pyValStr (pyIndex st.size 0),
   "--size_y", pyValStr (pyIndex st.size 1),
   "--size_z", pyValStr (pyIndex st.size 2),
   "--out", pathStr st.output_pdbqt,
   "--exhaustiveness", intStr st.exhaustiveness,
   "--num_modes", intStr st.num_modes,
   "--cpu", intStr st.cpu] ++
  (match st.seed with
   | some s => ["--seed", intStr s]
   | none => [])

/-- `VinaDocking.run`, parametrised by the subprocess outcome: on success the
log is written only when stdout is truthy (nonempty); then the transcript is
parsed and, only if parsing succeeds, the CSV is written. -/
def vinaRun (st : VinaState) (exitOk : Bool) (stdout stderr : String) :
    List Ev × Except PyErr (List Pose) :=
  let cmd := vinaCmd st
  if !exitOk then
    ([Ev.runProc cmd],
     .error (.runtimeError ("❌ AutoDock Vina failed:\n" ++ (if pyTruthy stderr then stderr else stdout))))
  else
    let logEvs := if pyTruthy stdout then [Ev.writeF st.output_log] else []
    match VinaDocking.parseOutput (some stdout) with
    | .error e => (Ev.runProc cmd :: logEvs, .error e)
    | .ok df => (Ev.runProc cmd :: (logEvs ++ [Ev.writeF st.output_csv]), .ok df)

/-- C10: when the docking subprocess exits with code 0 and empty stdout, the
run performs only the subprocess invocation — no log write and no CSV write —
and raises the `no results` `ValueError`. -/
theorem C10_empty_stdout_no_artifacts :
    ∀ (st : VinaState) (stderr : String),
    vinaRun st true "" stderr =
      ([Ev.runProc (vinaCmd st)], .error (.valueError noResultsMsg)) := by
  intro st stderr
  rfl

/-! ## PocketFinder.save_report -/

/-- `PocketFinder.save_report`: precondition check on the per-protein output
directory, then destination creation, removal of an existing target directory
of the same name, and a full directory copy. -/
def saveReport (st : PocketFinderState) (fs : FS) (saveDir : PathL) : Except PyErr FS :=
  if !(fs.isDir st.output_dir) then
    .error (.runtimeError ("❌ P2Rank output folder not found: " ++ pathStr st.output_dir))
  else
    let fs1 := fs.mkdirP saveDir
    let target := saveDir ++ [lastName st.output_dir]
    let fs2 := if fs1.isDir target || fs1.isFile target then fs1.rmtree target else fs1
    .ok (fs2.copytree st.output_dir target)

/-- A fresh file system holding only the input protein file. -/
def fsC3 : FS := { files := [(["prot.pdb"], "PROTDATA")], dirs := [[]] }

/-- C3 evaluation at the failing input: constructing a `PocketFinder` on an
existing `.pdb` file already creates the per-protein output directory, so
`save_report` called immediately afterwards — before `run()` — succeeds
instead of raising the documented `RuntimeError` precondition error. -/
theorem C3_save_report_before_run_no_error :
    ∃ r, pocketFinderInit fsC3 ["prot.pdb"] 4 = .ok r ∧
      exOk (saveReport r.1 r.2 ["dest"]) = true := by
  refine ⟨_, rfl, ?_⟩
  decide

/-! ## Ligand.prepare -/

/-- The package-relative temporary directory. -/
def TEMP_DIR_PATH : PathL := ["dockmate", "temp"]

/-- `Ligand.SUPPORTED_FORCEFIELDS`. -/
def SUPPORTED_FORCEFIELDS : List String := ["mmff94", "mmff94s", "uff", "gaff"]

/-- The unsupported-forcefield error message. -/
def ffErrMsg (ff : String) : String :=
  "❌ Unsupported forcefield " ++ ff ++ ". Supported: mmff94, mmff94s, uff, gaff"

/-- The temporary MOL2 path `prepare` assigns to `self.mol2_path` before the
forcefield check. -/
def plannedMol2 (st : LigandState) : PathL :=
  TEMP_DIR_PATH ++ [pathStem (lastName st.file_path) ++ ".mol2"]

/-- Python truthiness of an `Optional[str]` argument. -/
def optTruthy : Option String → Bool
  | none => false
  | some s => pyTruthy s

/-- The `-U` flag value built from the three removal switches. -/
def removeFlagsArg (nphs lps waters : Bool) : List String :=
  let fl := (if nphs then ["nphs"] else []) ++ (if lps then ["lps"] else []) ++
    (if waters then ["waters"] else [])
  if fl.isEmpty then [] else ["-U", String.intercalate "_" fl]

/-- `Ligand.prepare`, parametrised by the outcomes of the two subprocesses:
assigns `mol2_path`, builds the conversion command, checks the forcefield
(when `minimize` is truthy), then runs the conversion tool and the
ligand-preparation script. -/
def ligandPrepare (st : LigandState) (minimize : Option String)
    (add_hydrogens remove_nphs remove_lps remove_waters : Bool)
    (obabelOk : Bool) (mglExit : Int) :
    List Ev × LigandState × Except PyErr Unit :=
  let mol2 := plannedMol2 st
  let st1 := { st with mol2_path := some mol2 }
  let cmd0 := ["dockmate/bin/OpenBabel-3.1.1/obabel.exe", "-i", st1.input_format,
               pathStr st1.file_path, "-o", "mol2", "-O", pathStr mol2, "--gen3d", "-h"]
  let ffRes : Except PyErr (List String) :=
    if optTruthy minimize then
      let ff := pyLower (minimize.getD "")
      if !(SUPPORTED_FORCEFIELDS.contains ff) then .error (.valueError (ffErrMsg ff))
      else .ok (cmd0 ++ ["--minimize", "--ff", ff])
    else .ok cmd0
  match ffRes with
  | .error e => ([], st1, .error e)
  | .ok cmd =>
    if !obabelOk then ([Ev.runProc cmd], st1, .error (.calledProcessError "obabel"))
    else
      let pdbqtName := pathStem (lastName mol2) ++ ".pdbqt"
      let mglCmd := ["dockmate/bin/mgltools/python.exe",
                     "dockmate/bin/mgltools/Lib/site-packages/AutoDockTools/Utilities24/prepare_ligand4.py",
                     "-l", lastName mol2, "-o", pdbqtName]
                    ++ (if add_hydrogens then ["-A", "hydrogens"] else [])
                    ++ removeFlagsArg remove_nphs remove_lps remove_waters
      if mglExit ≠ 0 then
        ([Ev.runProc cmd, Ev.runProc mglCmd], st1,
         .error (.runtimeError "❌ MGLTools ligand preparation failed."))
      else
        ([Ev.runProc cmd, Ev.runProc mglCmd],
         { st1 with pdbqt_path := some (TEMP_DIR_PATH ++ [pdbqtName]) }, .ok ())

/-- A freshly constructed ligand object. -/
def ligSt0 : LigandState := ⟨["lig.sdf"], "sdf", none, none⟩

/-- C6 counterexample: rejecting the unsupported forcefield `amber` invokes no
subprocess and writes no file, but it does change object state —
`mol2_path` is assigned before the check; and the not-allow-listed value `""`
is falsy, so it is not rejected at all and a subprocess is invoked. -/
theorem C6_ff_rejection_counterexample :
    ((ligandPrepare ligSt0 (some "amber") true true true true true 0).1 = [] ∧
     (ligandPrepare ligSt0 (some "amber") true true true true true 0).2.2 =
       .error (.valueError (ffErrMsg "amber")) ∧
     (ligandPrepare ligSt0 (some "amber") true true true true true 0).2.1.mol2_path ≠
       ligSt0.mol2_path) ∧
    (ligandPrepare ligSt0 (some "") true true true true true 0).1 ≠ [] := by
  decide

/-- C6 (amended): for every nonempty `minimize` string whose lowercased value
is not in the forcefield allow-list, `prepare` raises the unsupported-
forcefield `ValueError` with an empty event trace — no subprocess invoked, no
file written — and the only object-state change is that `mol2_path` has been
assigned the planned temporary MOL2 path. -/
theorem C6_ff_rejection_amended :
    ∀ (st : LigandState) (m : String) (ah rn rl rw : Bool) (oOk : Bool) (mex : Int),
    pyTruthy m = true →
    SUPPORTED_FORCEFIELDS.contains (pyLower m) = false →
    ligandPrepare st (some m) ah rn rl rw oOk mex =
      ([], { st with mol2_path := some (plannedMol2 st) },
       .error (.valueError (ffErrMsg (pyLower m)))) := by
  intro st m ah rn rl rw oOk mex hm hff
  have hmem : pyLower m ∉ SUPPORTED_FORCEFIELDS := by simpa using hff
  simp [ligandPrepare, optTruthy, hm, hmem]

/-- C6 witness: the amended theorem applied to the forcefield `amber`. -/
theorem C6_ff_rejection_amended_witness :
    ligandPrepare ligSt0 (some "amber") true true true true true 0 =
      ([], { ligSt0 with mol2_path := some (plannedMol2 ligSt0) },
       .error (.valueError (ffErrMsg (pyLower "amber")))) :=
  C6_ff_rejection_amended ligSt0 "amber" true true true true true 0 (by decide) (by decide)

/-! ## Protein.prepare -/

/-- The tail of `Protein.prepare` after the optional format conversion: the
structure-fixer calls, the fixed-PDB write, and the receptor-preparation
script invocation. -/
def proteinPrepareRest (st : ProteinState) (stem : String) (pH : Rat)
    (add_hydrogens remove_water : Bool) (mglOk : Bool) (evs : List Ev) :
    List Ev × ProteinState × Except PyErr Unit :=
  let fixerEvs := [Ev.fixer "PDBFixer", Ev.fixer "findMissingResidues",
    Ev.fixer "findNonstandardResidues", Ev.fixer "replaceNonstandardResidues",
    Ev.fixer "findMissingAtoms", Ev.fixer "addMissingAtoms", Ev.fixerHet (!remove_water)]
    ++ (if add_hydrogens then [Ev.fixerHyd pH] else [])
  let fixedPdb := TEMP_DIR_PATH ++ [stem ++ "_fixed.pdb"]
  let st1 := { st with pdb_path := some fixedPdb }
  let outPdbqt := TEMP_DIR_PATH ++ [stem ++ ".pdbqt"]
  let mglCmd := ["dockmate/bin/mgltools/python.exe",
                 "dockmate/bin/mgltools/Lib/site-packages/AutoDockTools/Utilities24/prepare_receptor4.py",
                 "-r", pathStr fixedPdb, "-o", pathStr outPdbqt]
                ++ (if add_hydrogens then ["-A", "hydrogens"] else [])
                ++ (if remove_water then ["-U", "waters"] else [])
  let evs2 := evs ++ fixerEvs ++ [Ev.writeF fixedPdb, Ev.runProc mglCmd]
  if !mglOk then (evs2, st1, .error (.calledProcessError "mgltools"))
  else (evs2, { st1 with pdbqt_path := some outPdbqt }, .ok ())

/-- `Protein.prepare`, parametrised by the outcomes of the two subprocesses.
The `add_charges` parameter is accepted exactly as in the source. -/
def proteinPrepare (st : ProteinState) (pH : Rat)
    (add_hydrogens remove_water add_charges : Bool) (obabelOk mglOk : Bool) :
    List Ev × ProteinState × Except PyErr Unit :=
  let stem := pathStem (lastName st.file_path)
  if st.ext ≠ ".pdb" then
    let pdbPath := TEMP_DIR_PATH ++ [stem ++ ".pdb"]
    let cmd := ["dockmate/bin/OpenBabel-3.1.1/obabel.exe", pathStr st.file_path,
                "-O", pathStr pdbPath, "--gen3d"]
    if !obabelOk then
      ([Ev.runProc cmd], { st with pdb_path := some pdbPath },
       .error (.calledProcessError "obabel"))
    else
      proteinPrepareRest { st with pdb_path := some pdbPath } stem pH
        add_hydrogens remove_water mglOk [Ev.runProc cmd]
  else
    proteinPrepareRest { st with pdb_path := some st.file_path } stem pH
      add_hydrogens remove_water mglOk []

/-- C7: `add_charges` is accepted but never acted upon — with every other
argument fixed, `prepare(add_charges=True)` and `prepare(add_charges=False)`
produce the same event trace (same subprocess commands, same fixer calls,
same file writes), the same object state, and the same result. -/
theorem C7_add_charges_unused :
    ∀ (st : ProteinState) (pH : Rat) (ah rw : Bool) (oOk mOk : Bool),
    proteinPrepare st pH ah rw true oOk mOk = proteinPrepare st pH ah rw false oOk mOk := by
  intro st pH ah rw oOk mOk
  rfl

/-! ### C8 helper lemmas -/

/-- Two prefixes of the same list are comparable. -/
theorem prefix_total {l1 l2 l3 : PathL} (h1 : l1 <+: l3) (h2 : l2 <+: l3) :
    l1 <+: l2 ∨ l2 <+: l1 := by
  by_cases hl : l1.length ≤ l2.length
  · exact Or.inl (List.prefix_of_prefix_length_le h1 h2 hl)
  · exact Or.inr (List.prefix_of_prefix_length_le h2 h1 (Nat.le_of_lt (Nat.lt_of_not_le hl)))

/-- `under` in terms of `List.IsPrefix`. -/
theorem under_iff (d p : PathL) : under d p = true ↔ d <+: p ∧ d.length < p.length := by
  simp [under]

/-- Relocating a path strictly under the source puts it strictly under the
destination. -/
theorem under_relocate (od target p : PathL) (hp : under od p = true) :
    under target (relocate od target p) = true := by
  rcases (under_iff od p).1 hp with ⟨⟨r, hr⟩, hlen⟩
  subst hr
  rw [relocate, List.drop_left]
  apply (under_iff _ _).2
  refine ⟨⟨r, rfl⟩, ?_⟩
  have hr0 : r ≠ [] := by
    intro h0
    subst h0
    simp at hlen
  have := List.length_pos.2 hr0
  simp only [List.length_append]
  omega

/-- `mkdirP` does not remove existing directories. -/
theorem isDir_mkdirP (fs : FS) (d q : PathL) (h : fs.isDir q = true) :
    (fs.mkdirP d).isDir q = true := by
  simp only [FS.isDir, FS.mkdirP] at *
  simp only [List.contains_eq_any_beq, List.any_append, Bool.or_eq_true] at *
  exact Or.inr h

/-- C8: `save_report` with an existing per-protein output directory succeeds,
creates the target directory `saveDir/<name>` at the destination, and after
the call the files under the target are exactly the files of the output
directory relocated there — any previously existing target directory of the
same name has been removed and replaced. -/
theorem C8_save_report_overwrite :
    ∀ (st : PocketFinderState) (fs : FS) (saveDir : PathL),
    fs.isDir st.output_dir = true →
    ¬ (st.output_dir <+: saveDir ++ [lastName st.output_dir]) →
    ¬ (saveDir ++ [lastName st.output_dir] <+: st.output_dir) →
    (fs.isDir (saveDir ++ [lastName st.output_dir]) = true ∨
      ∀ kv ∈ fs.files, under (saveDir ++ [lastName st.output_dir]) kv.1 = false) →
    ∃ fs', saveReport st fs saveDir = .ok fs' ∧
      fs'.isDir (saveDir ++ [lastName st.output_dir]) = true ∧
      fs'.dirFiles (saveDir ++ [lastName st.output_dir]) =
        (fs.dirFiles st.output_dir).map
          (fun kv => (relocate st.output_dir (saveDir ++ [lastName st.output_dir]) kv.1, kv.2)) := by
  intro st fs saveDir h1 hpre1 hpre2 hstale
  have hno : ∀ p : PathL, under st.output_dir p = true →
      (saveDir ++ [lastName st.output_dir]).isPrefixOf p = false := by
    intro p hp
    rcases (under_iff _ _).1 hp with ⟨hpp, _⟩
    by_contra hc
    rw [Bool.not_eq_false, List.isPrefixOf_iff_prefix] at hc
    rcases prefix_total hc hpp with h | h
    · exact hpre2 h
    · exact hpre1 h
  have hsave : saveReport st fs saveDir =
      .ok ((if (fs.mkdirP saveDir).isDir (saveDir ++ [lastName st.output_dir]) ||
               (fs.mkdirP saveDir).isFile (saveDir ++ [lastName st.output_dir]) then
             (fs.mkdirP saveDir).rmtree (saveDir ++ [lastName st.output_dir])
           else fs.mkdirP saveDir).copytree st.output_dir (saveDir ++ [lastName st.output_dir])) := by
    unfold saveReport
    rw [h1]
    rfl
  refine ⟨_, hsave, ?_, ?_⟩
  · -- the target directory exists after copytree
    simp [FS.isDir, FS.copytree]
  · -- the files under the target are the relocated output-directory files
    have hfiles1 : (fs.mkdirP saveDir).files = fs.files := rfl
    -- facts about the intermediate state fs2
    have hfs2 : ∀ fs2 : FS,
        fs2 = (if (fs.mkdirP saveDir).isDir (saveDir ++ [lastName st.output_dir]) ||
                  (fs.mkdirP saveDir).isFile (saveDir ++ [lastName st.output_dir]) then
                (fs.mkdirP saveDir).rmtree (saveDir ++ [lastName st.output_dir])
              else fs.mkdirP saveDir) →
        (∀ kv ∈ fs2.files, under (saveDir ++ [lastName st.output_dir]) kv.1 = false) ∧
        fs2.dirFiles st.output_dir = fs.dirFiles st.output_dir := by
      intro fs2 hdef
      by_cases hif : ((fs.mkdirP saveDir).isDir (saveDir ++ [lastName st.output_dir]) ||
          (fs.mkdirP saveDir).isFile (saveDir ++ [lastName st.output_dir])) = true
      · rw [if_pos hif] at hdef
        subst hdef
        constructor
        · intro kv hkv
          simp only [FS.rmtree, hfiles1, List.mem_filter, Bool.not_eq_eq_eq_not,
            Bool.not_true] at hkv
          simp [under, hkv.2]
        · simp only [FS.dirFiles, FS.rmtree, hfiles1, List.filter_filter]
          apply List.filter_congr
          intro kv _
          cases hu : under st.output_dir kv.1 with
          | false => simp
          | true => simp [hno kv.1 hu]
      · rw [if_neg hif] at hdef
        subst hdef
        rcases hstale with hd | hkv
        · exfalso
          rw [Bool.not_eq_true, Bool.or_eq_false_iff] at hif
          have := isDir_mkdirP fs saveDir (saveDir ++ [lastName st.output_dir]) hd
          rw [hif.1] at this
          cases this
        · exact ⟨fun kv h => hkv kv h, rfl⟩
    rcases hfs2 _ rfl with ⟨ha, hb⟩
    simp only [FS.dirFiles, FS.copytree, List.filter_append]
    have hs : List.filter (fun kv => under (saveDir ++ [lastName st.output_dir]) kv.1)
        ((List.filter (fun kv => under st.output_dir kv.1)
          (if (fs.mkdirP saveDir).isDir (saveDir ++ [lastName st.output_dir]) ||
              (fs.mkdirP saveDir).isFile (saveDir ++ [lastName st.output_dir]) then
            (fs.mkdirP saveDir).rmtree (saveDir ++ [lastName st.output_dir])
          else fs.mkdirP saveDir).files).map
          (fun kv => (relocate st.output_dir (saveDir ++ [lastName st.output_dir]) kv.1, kv.2))) =
        (List.filter (fun kv => under st.output_dir kv.1)
          (if (fs.mkdirP saveDir).isDir (saveDir ++ [lastName st.output_dir]) ||
              (fs.mkdirP saveDir).isFile (saveDir ++ [lastName st.output_dir]) then
            (fs.mkdirP saveDir).rmtree (saveDir ++ [lastName st.output_dir])
          else fs.mkdirP saveDir).files).map
          (fun kv => (relocate st.output_dir (saveDir ++ [lastName st.output_dir]) kv.1, kv.2)) := by
      rw [List.filter_eq_self]
      intro x hx
      rcases List.mem_map.1 hx with ⟨kv, hkv, hxeq⟩
      rcases List.mem_filter.1 hkv with ⟨_, hu⟩
      subst hxeq
      simpa using under_relocate st.output_dir (saveDir ++ [lastName st.output_dir]) kv.1 hu
    have hz : List.filter (fun kv => under (saveDir ++ [lastName st.output_dir]) kv.1)
        (if (fs.mkdirP saveDir).isDir (saveDir ++ [lastName st.output_dir]) ||
            (fs.mkdirP saveDir).isFile (saveDir ++ [lastName st.output_dir]) then
          (fs.mkdirP saveDir).rmtree (saveDir ++ [lastName st.output_dir])
        else fs.mkdirP saveDir).files = [] := by
      rw [List.filter_eq_nil_iff]
      intro kv hkv
      simp [ha kv hkv]
    simp only [FS.dirFiles] at hb
    rw [hs, hz, List.append_nil, hb]

/-- File system used to witness C8: one prediction file in the per-protein
output directory, and a stale target directory with an old file at the
destination. -/
def fsC8 : FS :=
  { files := [(["t", "out", "prot", "preds.csv"], "NEWDATA"),
              (["dest", "prot", "stale.txt"], "OLDDATA")],
    dirs := [[], ["t"], ["t", "out"], ["t", "out", "prot"], ["dest"], ["dest", "prot"]] }

/-- PocketFinder state used to witness C8. -/
def stC8 : PocketFinderState := ⟨["prot.pdb"], ["t", "out", "prot"], 2⟩

/-- C8 witness: the theorem applied to `fsC8`, overwriting the stale
`dest/prot` directory. -/
theorem C8_save_report_overwrite_witness :
    ∃ fs', saveReport stC8 fsC8 ["dest"] = .ok fs' ∧
      fs'.isDir (["dest"] ++ [lastName stC8.output_dir]) = true ∧
      fs'.dirFiles (["dest"] ++ [lastName stC8.output_dir]) =
        (fsC8.dirFiles stC8.output_dir).map
          (fun kv => (relocate stC8.output_dir (["dest"] ++ [lastName stC8.output_dir]) kv.1, kv.2)) :=
  C8_save_report_overwrite stC8 fsC8 ["dest"] (by decide)
    (by decide) (by decide) (Or.inl (by decide))

end Dockmate
